import Mathlib

/-!
Shallow embedding of the student-management application
(`student_management/views.py`, `decorators.py`, `forms.py`, `models.py`).
Records are Lean structures, the database is a list of records, and each
view function becomes a pure Lean function from its inputs (request data,
session, database) to its outputs (updated database, session, message).
-/

namespace StudentApp

/-- Record `models.User`: the fields the login/lockout logic touches.
`id` models the UUID primary key, `last_login` a timestamp (`none` = NULL). -/
structure User where
  id : Nat
  email : String
  password : String
  is_admin : Bool
  is_locked : Bool
  failed_login_attempts : Nat
  last_login : Option Nat
  deriving Repr, DecidableEq

/-- Record `models.LearningPath`: the fields the ordering logic touches.
`student` is the owning student's id. -/
structure LearningPath where
  id : Nat
  student : Nat
  task_name : String
  is_completed : Bool
  order : Nat
  deriving Repr, DecidableEq

/-- The server-side session dictionary, restricted to the two keys the code
uses (`user_id`, stored as a string, and `user_email`). -/
structure Session where
  user_id : Option String
  user_email : Option String
  deriving Repr, DecidableEq

/-- Model of `request.session.flush()`: empties the session store. -/
def Session.flush (_ : Session) : Session := ⟨none, none⟩

/-- The empty (anonymous) session. -/
def Session.empty : Session := ⟨none, none⟩

/-- Lookup `User.objects.get(email=email)` under the unique-email constraint:
the first (hence only) user with that email, if any. -/
def findByEmail (db : List User) (email : String) : Option User :=
  db.find? (fun u => u.email == email)

/-- Lookup `User.objects.get(id=uid)` under the primary-key constraint. -/
def getById (db : List User) (uid : Nat) : Option User :=
  db.find? (fun u => u.id == uid)

/-- Model of `user.save()` on an existing row: replace the row with that primary key. -/
def updateById (db : List User) (u : User) : List User :=
  db.map (fun x => if x.id == u.id then u else x)

/-- Function `views.validate_password`: collects the violated password rules, in the
order the source checks them. -/
def validate_password (password : String) : List String :=
  let cs := password.toList
  let special : List Char :=
    ['!', '@', '#', '$', '%', '^', '&', '*', '(', ')', ',', '.', '?',
     '\"', ':', '\x7b', '\x7d', '|', '<', '>']
  (if password.length < 8 then
    ["Password must be at least 8 characters long."] else []) ++
  (if cs.any (fun c => c.isUpper) then [] else
    ["Password must contain at least one uppercase letter."]) ++
  (if cs.any (fun c => c.isLower) then [] else
    ["Password must contain at least one lowercase letter."]) ++
  (if cs.any (fun c => c.isDigit) then [] else
    ["Password must contain at least one digit."]) ++
  (if cs.any (fun c => special.contains c) then [] else
    ["Password must contain at least one special character (e.g., !@#$%^&*)."]) ++
  (if cs.contains ' ' then ["Password cannot contain spaces."] else [])

/-- Query `existing_paths.aggregate(Max('order'))['order__max'] or 0`: the maximum
`order` among the student's stages, or `0` when there are none. -/
def maxOrder (db : List LearningPath) (sid : Nat) : Nat :=
  (((db.filter (fun p => p.student == sid)).map (fun p => p.order)).foldr max 0)

/-- View `views.add_learning_path`, success path (valid form): reads the max
order for the student, then persists a new stage with `order = max + 1` and
the model default `is_completed = false`. -/
def add_learning_path (db : List LearningPath) (sid : Nat) (newId : Nat)
    (task : String) : List LearningPath :=
  let max_order := maxOrder db sid
  let new_order := max_order + 1
  db ++ [{ id := newId, student := sid, task_name := task,
           is_completed := false, order := new_order }]

/-- Result of one POST to `views.login_view`: the user table after the
attempt, the session after the attempt, the flash message produced, and
whether the response was the redirect to the dashboard. -/
structure LoginOutcome where
  db : List User
  session : Session
  message : String
  redirected_to_dashboard : Bool
  deriving Repr, DecidableEq

/-- View `views.login_view`, POST branch. `verify` is the external credential
store (`utils.verify_password`), `now` the clock (`timezone.now()`). -/
def login_view (verify : String → String → Bool) (now : Nat)
    (db : List User) (session : Session) (email password : String) :
    LoginOutcome :=
  if email.isEmpty || password.isEmpty then
    ⟨db, session, "Please provide both email and password.", false⟩
  else
    match findByEmail db email with
    | none => ⟨db, session, "Invalid email or password.", false⟩
    | some user =>
      if !user.is_admin && user.is_locked then
        ⟨db, session, "Your account is locked. Please contact an admin.", false⟩
      else if verify password user.password then
        ⟨updateById db { user with failed_login_attempts := 0, last_login := some now },
         { session with user_id := some (toString user.id),
                        user_email := some user.email },
         "Login successful!", true⟩
      else if !user.is_admin then
        let n := user.failed_login_attempts + 1
        if n ≥ 5 then
          ⟨updateById db { user with failed_login_attempts := n, is_locked := true },
           session,
           "Your account has been locked due to too many failed login attempts. Please contact an admin.",
           false⟩
        else
          ⟨updateById db { user with failed_login_attempts := n }, session,
           s!"Invalid email or password. Attempt {n}/5.", false⟩
      else
        ⟨db, session, "Invalid email or password.", false⟩

/-- Folding a sequence of login attempts (email, password pairs) over the
user table, each attempt seeing the table the previous one left. -/
def loginSeq (verify : String → String → Bool) (now : Nat)
    (db : List User) : List (String × String) → List User
  | [] => db
  | (e, p) :: rest =>
      loginSeq verify now (login_view verify now db Session.empty e p).db rest

/-- View `views.toggle_lock_user`, POST branch: sets the lock flag to the
requested value and resets the failed-attempt counter to 0. `none` models
the 404 when no user has that id. -/
def toggle_lock_user (db : List User) (uid : Nat) (locked : Bool) :
    Option (List User) :=
  match getById db uid with
  | none => none
  | some user =>
      some (updateById db
        { user with is_locked := locked, failed_login_attempts := 0 })

/-- Outcome of fetching `User.objects.get(id=uid)` inside the guard's
`try`: the row, `DoesNotExist`, or any other unexpected exception. -/
inductive FetchResult where
  | found (u : User)
  | notFound
  | fault
  deriving Repr, DecidableEq

/-- The fetch backed by a concrete user table (which never faults). -/
def dbFetch (db : List User) : Nat → FetchResult := fun uid =>
  match getById db uid with
  | some u => FetchResult.found u
  | none => FetchResult.notFound

/-- Outcome of a request to a guarded view: a redirect to login with a
message, a redirect to the unauthorized page, or the wrapped view invoked
with the resolved user attached. -/
inductive GuardOutcome (α : Type) where
  | redirectLogin (msg : String)
  | redirectUnauthorized (msg : String)
  | proceed (user : User) (result : α)
  deriving Repr

/-- Decorator `decorators.admin_required`: the wrapper around a view. `parse` models
`uuid.UUID` on the session string (`none` = `ValueError`), `fetch` the user
lookup. Returns the outcome and the session after the request (flushed only
in the invalid-session case). -/
def admin_required {α : Type} (parse : String → Option Nat)
    (fetch : Nat → FetchResult) (view : User → α) (session : Session) :
    GuardOutcome α × Session :=
  match session.user_id with
  | none => (GuardOutcome.redirectLogin "Please log in to access this page", session)
  | some s =>
    match parse s with
    | none =>
        (GuardOutcome.redirectLogin "Invalid session. Please log in again.",
         session.flush)
    | some uid =>
      match fetch uid with
      | FetchResult.notFound =>
          (GuardOutcome.redirectLogin "Invalid session. Please log in again.",
           session.flush)
      | FetchResult.fault =>
          (GuardOutcome.redirectLogin
            "An unexpected error occurred. Please try again later.", session)
      | FetchResult.found user =>
        if !user.is_admin then
          (GuardOutcome.redirectUnauthorized
            "You do not have permission to access this page", session)
        else
          (GuardOutcome.proceed user (view user), session)

/-- A datetime split as (day, time-of-day), ordered lexicographically;
`tod = 0` is midnight, so `datetime.now().replace(hour=0, minute=0,
second=0, microsecond=0)` is `⟨day, 0⟩`. -/
structure DateTime where
  day : Int
  tod : Nat
  deriving Repr, DecidableEq

/-- Strict comparison of datetimes (Python `<` on datetime). -/
def DateTime.ltb (a b : DateTime) : Bool :=
  a.day < b.day || (a.day == b.day && a.tod < b.tod)

/-- Validation `forms.LearningPathForm.clean`, the date checks: `nowDay` is today's
date, `instance_pk` is `self.instance.pk` (`none` for a new record). -/
def LearningPathForm.clean (nowDay : Int) (start estimated_end : DateTime)
    (instance_pk : Option Nat) : Except String Unit :=
  if DateTime.ltb estimated_end start then
    Except.error "Start date cannot be later than the estimated end date."
  else
    let today : DateTime := ⟨nowDay, 0⟩
    if DateTime.ltb start today && instance_pk.isNone then
      Except.error "Start date cannot be in the past for new learning paths."
    else
      Except.ok ()

/-- View `views.delete_learning_path`, the record mutation: remove the row with
the given primary key; no other row is touched. The source view checks no
session and no admin flag before deleting (only `@require_POST`), so the
session argument is unused, exactly as in the code. Returns the new table
and whether a row was found (`get_object_or_404`). -/
def delete_learning_path (_session : Session) (db : List LearningPath)
    (pid : Nat) : List LearningPath × Bool :=
  match db.find? (fun p => p.id == pid) with
  | none => (db, false)
  | some _ => (db.filter (fun p => p.id != pid), true)

/-- The read phase of `views.add_learning_path`: the max-order query the
view issues before inserting. No transaction or lock surrounds it in the
source. -/
def add_read (db : List LearningPath) (sid : Nat) : Nat := maxOrder db sid

/-- The write phase of `views.add_learning_path`: insert a stage whose
order is one more than the max the read phase returned. -/
def add_write (db : List LearningPath) (sid newId : Nat) (task : String)
    (max_order : Nat) : List LearningPath :=
  db ++ [{ id := newId, student := sid, task_name := task,
           is_completed := false, order := max_order + 1 }]

/-- Two concurrent `add_learning_path` requests for the same student,
interleaved as read-read-write-write: each worker runs the max-order query
against the same initial table, then both insert. -/
def interleaved_adds (db : List LearningPath) (sid id1 id2 : Nat)
    (t1 t2 : String) : List LearningPath :=
  let m1 := add_read db sid
  let m2 := add_read db sid
  add_write (add_write db sid id1 t1 m1) sid id2 t2 m2

/-- The multiset of `order` values among one student's stages. -/
def ordersOf (db : List LearningPath) (sid : Nat) : List Nat :=
  (db.filter (fun p => p.student == sid)).map (fun p => p.order)

/-- Concrete fixture: a non-admin account at 4 failed attempts. -/
def sampleU4 : User :=
  { id := 1, email := "e@x", password := "pw", is_admin := false,
    is_locked := false, failed_login_attempts := 4, last_login := none }

/-- Concrete fixture: the same account once locked at 5 attempts. -/
def sampleLocked : User :=
  { sampleU4 with is_locked := true, failed_login_attempts := 5 }

/-- Concrete fixture: the same account with a clean counter. -/
def sampleU0 : User := { sampleU4 with failed_login_attempts := 0 }

/-- Concrete fixture: an admin account. -/
def sampleAdmin : User :=
  { id := 2, email := "a@x", password := "pw", is_admin := true,
    is_locked := false, failed_login_attempts := 0, last_login := none }

/-- Concrete fixture: an admin account carrying the lock flag. -/
def sampleLockedAdmin : User := { sampleAdmin with is_locked := true }

/-- Concrete credential store for witnesses: the password matches when it
equals the stored secret. -/
def beqVerify : String → String → Bool := fun a b => a == b

/-- Concrete session-id parser for witnesses: reads a decimal numeral,
`none` on any non-digit (the parse-failure case of `uuid.UUID`). -/
def parseDigits (s : String) : Option Nat :=
  if s.toList.all (fun c => c.isDigit) && !s.toList.isEmpty then
    some (s.toList.foldl (fun n c => n * 10 + (c.toNat - 48)) 0)
  else
    none

/-- The primary keys of the user table are pairwise distinct (the database
constraint on `id`). -/
def NodupIds (db : List User) : Prop := (db.map (fun u => u.id)).Nodup

theorem findByEmail_mem {db : List User} {e : String} {u : User}
    (h : findByEmail db e = some u) : u ∈ db :=
  List.mem_of_find?_eq_some h

theorem getById_mem {db : List User} {uid : Nat} {u : User}
    (h : getById db uid = some u) : u ∈ db :=
  List.mem_of_find?_eq_some h

theorem getById_id {db : List User} {uid : Nat} {u : User}
    (h : getById db uid = some u) : u.id = uid := by
  have := List.find?_some h
  simpa using this

theorem eq_of_mem_of_id_eq {db : List User} {u v : User} (hn : NodupIds db)
    (hu : u ∈ db) (hv : v ∈ db) (h : u.id = v.id) : u = v :=
  List.inj_on_of_nodup_map hn hu hv h

theorem updateById_map_id (db : List User) (u : User) :
    (updateById db u).map (fun x => x.id) = db.map (fun x => x.id) := by
  unfold updateById
  rw [List.map_map]
  apply List.map_congr_left
  intro a _
  by_cases hc : a.id = u.id
  · simp [Function.comp, hc]
  · simp [Function.comp, hc]

theorem NodupIds_updateById {db : List User} (u : User) (h : NodupIds db) :
    NodupIds (updateById db u) := by
  unfold NodupIds at *
  rw [updateById_map_id]
  exact h

theorem updateById_cons (a : User) (t : List User) (u : User) :
    updateById (a :: t) u = (if a.id == u.id then u else a) :: updateById t u :=
  rfl

theorem getById_cons (a : User) (t : List User) (uid : Nat) :
    getById (a :: t) uid = if a.id == uid then some a else getById t uid := by
  simp only [getById, List.find?]
  cases h : a.id == uid <;> simp

theorem getById_updateById_ne {db : List User} {u : User} {uid : Nat}
    (h : u.id ≠ uid) : getById (updateById db u) uid = getById db uid := by
  induction db with
  | nil => rfl
  | cons a t ih =>
    rw [updateById_cons]
    by_cases hc : a.id = u.id
    · rw [if_pos (beq_iff_eq.mpr hc), getById_cons, getById_cons]
      rw [if_neg (by simp [h]), if_neg (by simp [hc ▸ h])]
      exact ih
    · rw [if_neg (by simp [hc]), getById_cons, getById_cons]
      by_cases hcc : a.id = uid
      · rw [if_pos (beq_iff_eq.mpr hcc), if_pos (beq_iff_eq.mpr hcc)]
      · rw [if_neg (by simp [hcc]), if_neg (by simp [hcc])]
        exact ih

theorem getById_updateById_self {db : List User} {u : User}
    (h : ∃ x ∈ db, x.id = u.id) : getById (updateById db u) u.id = some u := by
  induction db with
  | nil => simp at h
  | cons a t ih =>
    rw [updateById_cons]
    by_cases hc : a.id = u.id
    · rw [if_pos (beq_iff_eq.mpr hc), getById_cons]
      simp
    · rw [if_neg (by simp [hc]), getById_cons, if_neg (by simp [hc])]
      apply ih
      obtain ⟨x, hx, hxid⟩ := h
      rcases List.mem_cons.mp hx with rfl | hxt
      · exact absurd hxid hc
      · exact ⟨x, hxt, hxid⟩

theorem getById_of_mem_nodup {db : List User} {u : User}
    (hn : NodupIds db) (hu : u ∈ db) : getById db u.id = some u := by
  induction db with
  | nil => simp at hu
  | cons a t ih =>
    rw [getById_cons]
    rcases List.mem_cons.mp hu with rfl | hut
    · simp
    · have hn' : (a.id :: t.map (fun x => x.id)).Nodup := hn
      have ha : a.id ≠ u.id := by
        intro hEq
        have : u.id ∈ t.map (fun x => x.id) :=
          List.mem_map.mpr ⟨u, hut, rfl⟩
        exact (List.nodup_cons.mp hn').1 (hEq ▸ this)
      rw [if_neg (by simp [ha])]
      exact ih (List.nodup_cons.mp hn').2 hut

theorem login_view_not_found {verify : String → String → Bool} {now : Nat}
    {db : List User} {session : Session} {email password : String}
    (he : email.isEmpty = false) (hp : password.isEmpty = false)
    (hf : findByEmail db email = none) :
    login_view verify now db session email password =
      ⟨db, session, "Invalid email or password.", false⟩ := by
  simp [login_view, he, hp, hf]

theorem login_view_locked {verify : String → String → Bool} {now : Nat}
    {db : List User} {session : Session} {email password : String} {u : User}
    (he : email.isEmpty = false) (hp : password.isEmpty = false)
    (hf : findByEmail db email = some u)
    (hadmin : u.is_admin = false) (hlock : u.is_locked = true) :
    login_view verify now db session email password =
      ⟨db, session, "Your account is locked. Please contact an admin.", false⟩ := by
  simp [login_view, he, hp, hf, hadmin, hlock]

theorem login_view_success {verify : String → String → Bool} {now : Nat}
    {db : List User} {session : Session} {email password : String} {u : User}
    (he : email.isEmpty = false) (hp : password.isEmpty = false)
    (hf : findByEmail db email = some u)
    (hgate : (!u.is_admin && u.is_locked) = false)
    (hv : verify password u.password = true) :
    login_view verify now db session email password =
      ⟨updateById db { u with failed_login_attempts := 0, last_login := some now },
       { session with user_id := some (toString u.id), user_email := some u.email },
       "Login successful!", true⟩ := by
  simp [login_view, he, hp, hf, hgate, hv]

theorem login_view_wrong_admin {verify : String → String → Bool} {now : Nat}
    {db : List User} {session : Session} {email password : String} {u : User}
    (he : email.isEmpty = false) (hp : password.isEmpty = false)
    (hf : findByEmail db email = some u)
    (hadmin : u.is_admin = true)
    (hv : verify password u.password = false) :
    login_view verify now db session email password =
      ⟨db, session, "Invalid email or password.", false⟩ := by
  simp [login_view, he, hp, hf, hadmin, hv]

theorem login_view_wrong_low {verify : String → String → Bool} {now : Nat}
    {db : List User} {session : Session} {email password : String} {u : User}
    (he : email.isEmpty = false) (hp : password.isEmpty = false)
    (hf : findByEmail db email = some u)
    (hadmin : u.is_admin = false) (hlock : u.is_locked = false)
    (hv : verify password u.password = false)
    (hn : u.failed_login_attempts + 1 < 5) :
    login_view verify now db session email password =
      ⟨updateById db { u with failed_login_attempts := u.failed_login_attempts + 1 },
       session,
       s!"Invalid email or password. Attempt {u.failed_login_attempts + 1}/5.",
       false⟩ := by
  have hn' : ¬ 5 ≤ u.failed_login_attempts + 1 := by omega
  simp [login_view, he, hp, hf, hadmin, hlock, hv, hn']

theorem login_view_wrong_lockout {verify : String → String → Bool} {now : Nat}
    {db : List User} {session : Session} {email password : String} {u : User}
    (he : email.isEmpty = false) (hp : password.isEmpty = false)
    (hf : findByEmail db email = some u)
    (hadmin : u.is_admin = false) (hlock : u.is_locked = false)
    (hv : verify password u.password = false)
    (hn : 5 ≤ u.failed_login_attempts + 1) :
    login_view verify now db session email password =
      ⟨updateById db { u with failed_login_attempts := u.failed_login_attempts + 1,
                              is_locked := true },
       session,
       "Your account has been locked due to too many failed login attempts. Please contact an admin.",
       false⟩ := by
  simp [login_view, he, hp, hf, hadmin, hlock, hv, hn]

theorem login_view_db_cases (verify : String → String → Bool) (now : Nat)
    (db : List User) (session : Session) (email password : String) :
    (login_view verify now db session email password).db = db ∨
    ∃ v, findByEmail db email = some v ∧
      ((login_view verify now db session email password).db =
          updateById db { v with failed_login_attempts := 0,
                                 last_login := some now } ∨
       (v.is_admin = false ∧ v.is_locked = false ∧
          5 ≤ v.failed_login_attempts + 1 ∧
          (login_view verify now db session email password).db =
            updateById db { v with failed_login_attempts :=
                                     v.failed_login_attempts + 1,
                                   is_locked := true }) ∨
       (v.is_admin = false ∧ v.is_locked = false ∧
          v.failed_login_attempts + 1 < 5 ∧
          (login_view verify now db session email password).db =
            updateById db { v with failed_login_attempts :=
                                     v.failed_login_attempts + 1 })) := by
  by_cases he : email.isEmpty
  · left; simp [login_view, he]
  by_cases hp : password.isEmpty
  · left; simp [login_view, he, hp]
  rw [Bool.not_eq_true] at he hp
  cases hf : findByEmail db email with
  | none => left; rw [login_view_not_found he hp hf]
  | some u =>
    by_cases hA : u.is_admin
    · by_cases hV : verify password u.password
      · right
        refine ⟨u, rfl, Or.inl ?_⟩
        rw [login_view_success he hp hf (by simp [hA]) hV]
      · rw [Bool.not_eq_true] at hV
        left
        rw [login_view_wrong_admin he hp hf hA hV]
    · rw [Bool.not_eq_true] at hA
      by_cases hL : u.is_locked
      · left; rw [login_view_locked he hp hf hA hL]
      rw [Bool.not_eq_true] at hL
      by_cases hV : verify password u.password
      · right
        refine ⟨u, rfl, Or.inl ?_⟩
        rw [login_view_success he hp hf (by simp [hA, hL]) hV]
      · rw [Bool.not_eq_true] at hV
        by_cases hn : 5 ≤ u.failed_login_attempts + 1
        · right
          refine ⟨u, rfl, Or.inr (Or.inl ⟨hA, hL, hn, ?_⟩)⟩
          rw [login_view_wrong_lockout he hp hf hA hL hV hn]
        · right
          refine ⟨u, rfl, Or.inr (Or.inr ⟨hA, hL, by omega, ?_⟩)⟩
          rw [login_view_wrong_low he hp hf hA hL hV (by omega)]

theorem login_step_admin (verify : String → String → Bool) (now : Nat)
    (db : List User) (session : Session) (email password : String)
    (uid : Nat) (u : User)
    (hn : NodupIds db) (hu : getById db uid = some u) (ha : u.is_admin = true) :
    ∃ u', getById (login_view verify now db session email password).db uid = some u' ∧
      u'.is_admin = true ∧ u'.is_locked = u.is_locked ∧
      u'.failed_login_attempts ≤ u.failed_login_attempts ∧
      NodupIds (login_view verify now db session email password).db := by
  rcases login_view_db_cases verify now db session email password with
    hdb | ⟨v, hf, hcase⟩
  · exact ⟨u, by rw [hdb]; exact hu, ha, rfl, le_refl _, by rw [hdb]; exact hn⟩
  have hv_mem := findByEmail_mem hf
  have hu_mem := getById_mem hu
  have huid := getById_id hu
  rcases hcase with hdb | ⟨hA, _, _, hdb⟩ | ⟨hA, _, _, hdb⟩
  · by_cases hvu : v.id = uid
    · have hveq : v = u := eq_of_mem_of_id_eq hn hv_mem hu_mem (by rw [hvu, huid])
      subst hveq
      refine ⟨{ v with failed_login_attempts := 0, last_login := some now },
        ?_, ha, rfl, Nat.zero_le _, by rw [hdb]; exact NodupIds_updateById _ hn⟩
      rw [hdb, ← huid]
      exact getById_updateById_self ⟨v, hv_mem, rfl⟩
    · refine ⟨u, ?_, ha, rfl, le_refl _,
        by rw [hdb]; exact NodupIds_updateById _ hn⟩
      rw [hdb,
        @getById_updateById_ne db
          { v with failed_login_attempts := 0, last_login := some now } uid hvu]
      exact hu
  · by_cases hvu : v.id = uid
    · have hveq : v = u := eq_of_mem_of_id_eq hn hv_mem hu_mem (by rw [hvu, huid])
      simp [hveq, ha] at hA
    · refine ⟨u, ?_, ha, rfl, le_refl _,
        by rw [hdb]; exact NodupIds_updateById _ hn⟩
      rw [hdb,
        @getById_updateById_ne db
          { v with failed_login_attempts := v.failed_login_attempts + 1,
                   is_locked := true } uid hvu]
      exact hu
  · by_cases hvu : v.id = uid
    · have hveq : v = u := eq_of_mem_of_id_eq hn hv_mem hu_mem (by rw [hvu, huid])
      simp [hveq, ha] at hA
    · refine ⟨u, ?_, ha, rfl, le_refl _,
        by rw [hdb]; exact NodupIds_updateById _ hn⟩
      rw [hdb,
        @getById_updateById_ne db
          { v with failed_login_attempts := v.failed_login_attempts + 1 }
          uid hvu]
      exact hu

theorem loginSeq_admin_invariant (verify : String → String → Bool) (now : Nat)
    (attempts : List (String × String)) :
    ∀ db uid u, NodupIds db → getById db uid = some u → u.is_admin = true →
      ∃ u', getById (loginSeq verify now db attempts) uid = some u' ∧
        u'.is_admin = true ∧ u'.is_locked = u.is_locked ∧
        u'.failed_login_attempts ≤ u.failed_login_attempts := by
  induction attempts with
  | nil => exact fun db uid u _ hu ha => ⟨u, hu, ha, rfl, le_refl _⟩
  | cons ep rest ih =>
    intro db uid u hn hu ha
    obtain ⟨e, p⟩ := ep
    obtain ⟨u₁, hu₁, ha₁, hl₁, hc₁, hn₁⟩ :=
      login_step_admin verify now db Session.empty e p uid u hn hu ha
    obtain ⟨u', hu', ha', hl', hc'⟩ :=
      ih (login_view verify now db Session.empty e p).db uid u₁ hn₁ hu₁ ha₁
    refine ⟨u', ?_, ha', by rw [hl', hl₁], le_trans hc' hc₁⟩
    simpa [loginSeq] using hu'

theorem ltb_midnight (a : DateTime) (d : Int) :
    DateTime.ltb a ⟨d, 0⟩ = true ↔ a.day < d := by
  simp [DateTime.ltb]

end StudentApp

open StudentApp

/-- C9: `validate_password` accepts "Abcdef1!" with zero violations, reports
exactly the three violations (uppercase, digit, special character) for
"abcdefgh", and exactly four (length, uppercase, digit, special character)
for "short". -/
theorem C9_validate_password_examples :
    validate_password "Abcdef1!" = [] ∧
    validate_password "abcdefgh" =
      ["Password must contain at least one uppercase letter.",
       "Password must contain at least one digit.",
       "Password must contain at least one special character (e.g., !@#$%^&*)."] ∧
    validate_password "short" =
      ["Password must be at least 8 characters long.",
       "Password must contain at least one uppercase letter.",
       "Password must contain at least one digit.",
       "Password must contain at least one special character (e.g., !@#$%^&*)."] := by
  refine ⟨?_, ?_, ?_⟩ <;> rfl

/-- C1: `add_learning_path` appends a stage with
`order = (max existing order for the student, or 0) + 1` and
`is_completed = false`; with no existing stages the order is 1, and with max
order k it is k + 1 whatever gaps deletions have left; deleting a stage
returns the surviving rows unchanged (never renumbered). -/
theorem C1_add_stage_order (db : List LearningPath) (sid newId pid : Nat)
    (task : String) (session : Session) :
    add_learning_path db sid newId task =
      db ++ [{ id := newId, student := sid, task_name := task,
               is_completed := false, order := maxOrder db sid + 1 }] ∧
    (ordersOf db sid = [] →
      add_learning_path db sid newId task =
        db ++ [{ id := newId, student := sid, task_name := task,
                 is_completed := false, order := 1 }]) ∧
    (∀ q ∈ (delete_learning_path session db pid).1, q ∈ db) ∧
    (∀ q ∈ db, q.id ≠ pid → q ∈ (delete_learning_path session db pid).1) := by
  refine ⟨rfl, ?_, ?_, ?_⟩
  · intro h
    have hm : maxOrder db sid = 0 := by
      have h0 : maxOrder db sid = (ordersOf db sid).foldr max 0 := rfl
      rw [h0, h]
      rfl
    simp [add_learning_path, hm]
  · intro q hq
    unfold delete_learning_path at hq
    cases hfind : db.find? (fun p => p.id == pid) with
    | none => rw [hfind] at hq; exact hq
    | some p => rw [hfind] at hq; exact List.mem_of_mem_filter hq
  · intro q hq hne
    unfold delete_learning_path
    cases hfind : db.find? (fun p => p.id == pid) with
    | none => exact hq
    | some p =>
      simp only []
      exact List.mem_filter.mpr ⟨hq, by simp [hne]⟩

/-- C6: `add_learning_path` is exactly the unguarded read-then-write
(`add_read` then `add_write`, nothing between them), and the
read-read-write-write interleaving of two adds for the same student yields
the duplicate order list [1, 1]. -/
theorem C6_unguarded_read_then_write :
    (∀ db sid newId task, add_learning_path db sid newId task
        = add_write db sid newId task (add_read db sid)) ∧
    ordersOf (interleaved_adds [] 0 1 2 "a" "b") 0 = [1, 1] :=
  ⟨fun _ _ _ _ => rfl, rfl⟩

/-- C5: `delete_learning_path` never consults the session (its result is the
same for every session, including the anonymous one), and with an anonymous
session it deletes an existing stage and reports success. -/
theorem C5_delete_ignores_session :
    (∀ session db pid, delete_learning_path session db pid
        = delete_learning_path Session.empty db pid) ∧
    delete_learning_path Session.empty
      [{ id := 7, student := 3, task_name := "t", is_completed := false,
         order := 1 }] 7
      = ([], true) :=
  ⟨fun _ _ _ => rfl, rfl⟩

/-- C8: `LearningPathForm.clean` rejects start later than estimated end;
for a new record (no instance pk) it rejects a start whose day is strictly
before today's day — a date-only comparison, whatever the times of day —
and accepts otherwise; an existing record is exempt from the past-date
rule. -/
theorem C8_form_date_rules (nowDay : Int) (start eend : DateTime) (pk : Nat) :
    (∀ ipk, DateTime.ltb eend start = true →
        LearningPathForm.clean nowDay start eend ipk =
          Except.error "Start date cannot be later than the estimated end date.") ∧
    (DateTime.ltb eend start = false → start.day < nowDay →
        LearningPathForm.clean nowDay start eend none =
          Except.error "Start date cannot be in the past for new learning paths.") ∧
    (DateTime.ltb eend start = false → ¬ start.day < nowDay →
        LearningPathForm.clean nowDay start eend none = Except.ok ()) ∧
    (DateTime.ltb eend start = false →
        LearningPathForm.clean nowDay start eend (some pk) = Except.ok ()) := by
  refine ⟨?_, ?_, ?_, ?_⟩
  · intro ipk h
    simp [LearningPathForm.clean, h]
  · intro h1 h2
    have hlt : DateTime.ltb start ⟨nowDay, 0⟩ = true :=
      (ltb_midnight start nowDay).mpr h2
    simp [LearningPathForm.clean, h1, hlt]
  · intro h1 h2
    have hlt : DateTime.ltb start ⟨nowDay, 0⟩ = false :=
      Bool.eq_false_iff.mpr (fun hx => h2 ((ltb_midnight start nowDay).mp hx))
    simp [LearningPathForm.clean, h1, hlt]
  · intro h1
    simp [LearningPathForm.clean, h1]

/-- Witness for C8 at concrete dates: today = day 10; a new record starting
day 9 (even late in the day) is rejected, and editing an existing record
with that same past start is accepted. -/
theorem C8_form_date_rules_witness :
    LearningPathForm.clean 10 ⟨9, 1000⟩ ⟨12, 0⟩ none =
      Except.error "Start date cannot be in the past for new learning paths." ∧
    LearningPathForm.clean 10 ⟨9, 1000⟩ ⟨12, 0⟩ (some 1) = Except.ok () :=
  ⟨(C8_form_date_rules 10 ⟨9, 1000⟩ ⟨12, 0⟩ 1).2.1 (by decide) (by decide),
   (C8_form_date_rules 10 ⟨9, 1000⟩ ⟨12, 0⟩ 1).2.2.2 (by decide)⟩

/-- C2: a non-admin user at 4 failed attempts who fails once more reaches
counter 5, is locked, and gets the account-locked message; while locked,
every attempt is rejected with the locked message before the password is
checked — the outcome is identical for every credential checker, so even a
correct password is refused — until the admin toggle unlocks the account
(flag false, counter 0); a failure that leaves the counter below 5 reports
the attempt count out of 5. -/
theorem C2_lockout_at_five (verify : String → String → Bool) (now : Nat) :
    (∀ db session email password u,
      email.isEmpty = false → password.isEmpty = false →
      findByEmail db email = some u → u.is_admin = false →
      u.is_locked = false → u.failed_login_attempts = 4 →
      verify password u.password = false →
      (login_view verify now db session email password).message =
        "Your account has been locked due to too many failed login attempts. Please contact an admin." ∧
      getById (login_view verify now db session email password).db u.id =
        some { u with failed_login_attempts := 5, is_locked := true }) ∧
    (∀ (verify2 : String → String → Bool) db session email password u,
      email.isEmpty = false → password.isEmpty = false →
      findByEmail db email = some u → u.is_admin = false → u.is_locked = true →
      login_view verify2 now db session email password =
        ⟨db, session, "Your account is locked. Please contact an admin.", false⟩) ∧
    (∀ db uid u, getById db uid = some u →
      ∃ db', toggle_lock_user db uid false = some db' ∧
        getById db' uid =
          some { u with is_locked := false, failed_login_attempts := 0 }) ∧
    (∀ db session email password u,
      email.isEmpty = false → password.isEmpty = false →
      findByEmail db email = some u → u.is_admin = false →
      u.is_locked = false → u.failed_login_attempts + 1 < 5 →
      verify password u.password = false →
      (login_view verify now db session email password).message =
        s!"Invalid email or password. Attempt {u.failed_login_attempts + 1}/5.") := by
  refine ⟨?_, ?_, ?_, ?_⟩
  · intro db session email password u he hp hf hA hL hc hv
    rw [login_view_wrong_lockout he hp hf hA hL hv (by omega)]
    refine ⟨rfl, ?_⟩
    have hc5 : u.failed_login_attempts + 1 = 5 := by omega
    show getById (updateById db _) u.id = _
    rw [hc5]
    exact getById_updateById_self ⟨u, findByEmail_mem hf, rfl⟩
  · intro verify2 db session email password u he hp hf hA hL
    rw [login_view_locked he hp hf hA hL]
  · intro db uid u hu
    refine ⟨updateById db
      { u with is_locked := false, failed_login_attempts := 0 }, ?_, ?_⟩
    · simp [toggle_lock_user, hu]
    · rw [← getById_id hu]
      exact getById_updateById_self ⟨u, getById_mem hu, rfl⟩
  · intro db session email password u he hp hf hA hL hc hv
    rw [login_view_wrong_low he hp hf hA hL hv hc]

/-- Witness for C2: a concrete non-admin user at 4 failed attempts; one more
wrong password locks them; once locked even the correct password is
refused; the admin toggle restores access. -/
theorem C2_lockout_at_five_witness :
    ((login_view beqVerify 0 [sampleU4] Session.empty "e@x" "bad").message =
      "Your account has been locked due to too many failed login attempts. Please contact an admin.") ∧
    (login_view beqVerify 0 [sampleLocked] Session.empty "e@x" "pw" =
      ⟨[sampleLocked], Session.empty,
       "Your account is locked. Please contact an admin.", false⟩) ∧
    (∃ db', toggle_lock_user [sampleLocked] 1 false = some db' ∧
      getById db' 1 =
        some { sampleLocked with is_locked := false,
                                 failed_login_attempts := 0 }) ∧
    ((login_view beqVerify 0 [sampleU0] Session.empty "e@x" "bad").message =
      "Invalid email or password. Attempt 1/5.") := by
  refine ⟨?_, ?_, ?_, ?_⟩
  · exact ((C2_lockout_at_five beqVerify 0).1 [sampleU4] Session.empty
      "e@x" "bad" sampleU4 rfl rfl rfl rfl rfl rfl (by decide)).1
  · exact (C2_lockout_at_five beqVerify 0).2.1 beqVerify
      [sampleLocked] Session.empty "e@x" "pw" sampleLocked rfl rfl rfl rfl rfl
  · exact (C2_lockout_at_five beqVerify 0).2.2.1 [sampleLocked] 1
      sampleLocked rfl
  · exact (C2_lockout_at_five beqVerify 0).2.2.2 [sampleU0] Session.empty
      "e@x" "bad" sampleU0 rfl rfl rfl rfl rfl (by decide) (by decide)

/-- C3: an admin account is exempt from lockout: no sequence of login
attempts ever sets its lock flag or raises its counter; a single incorrect
attempt leaves the whole table unchanged; among the modelled operations the
only other change to any user's lock flag is the admin toggle, which sets
the flag to the requested value and zeroes the counter; and a login can
change a lock flag only by the automatic lockout (non-admin, wrong
password, counter reaching 5). -/
theorem C3_admin_exempt (verify : String → String → Bool) (now : Nat) :
    (∀ db attempts uid u, NodupIds db → getById db uid = some u →
      u.is_admin = true →
      ∃ u', getById (loginSeq verify now db attempts) uid = some u' ∧
        u'.is_admin = true ∧ u'.is_locked = u.is_locked ∧
        u'.failed_login_attempts ≤ u.failed_login_attempts) ∧
    (∀ db session email password u, findByEmail db email = some u →
      u.is_admin = true → verify password u.password = false →
      (login_view verify now db session email password).db = db) ∧
    (∀ db uid u locked, getById db uid = some u →
      ∃ db', toggle_lock_user db uid locked = some db' ∧
        getById db' uid =
          some { u with is_locked := locked, failed_login_attempts := 0 }) ∧
    (∀ db session email password uid u u', NodupIds db →
      getById db uid = some u →
      getById (login_view verify now db session email password).db uid = some u' →
      u'.is_locked ≠ u.is_locked →
      u.is_admin = false ∧ u'.is_locked = true ∧
      u'.failed_login_attempts = u.failed_login_attempts + 1 ∧
      5 ≤ u'.failed_login_attempts) := by
  refine ⟨fun db attempts uid u hn hu ha =>
    loginSeq_admin_invariant verify now attempts db uid u hn hu ha, ?_, ?_, ?_⟩
  · intro db session email password u hf ha hv
    by_cases he : email.isEmpty
    · simp [login_view, he]
    by_cases hp : password.isEmpty
    · simp [login_view, he, hp]
    rw [Bool.not_eq_true] at he hp
    rw [login_view_wrong_admin he hp hf ha hv]
  · intro db uid u locked hu
    refine ⟨updateById db
      { u with is_locked := locked, failed_login_attempts := 0 }, ?_, ?_⟩
    · simp [toggle_lock_user, hu]
    · rw [← getById_id hu]
      exact getById_updateById_self ⟨u, getById_mem hu, rfl⟩
  · intro db session email password uid u u' hn hu hu' hne
    have hu_mem := getById_mem hu
    have huid := getById_id hu
    rcases login_view_db_cases verify now db session email password with
      hdb | ⟨v, hf, hcase⟩
    · rw [hdb, hu] at hu'
      exact absurd (congrArg User.is_locked (Option.some.inj hu')).symm hne
    have hv_mem := findByEmail_mem hf
    rcases hcase with hdb | ⟨hA, hL, hn5, hdb⟩ | ⟨hA, hL, _, hdb⟩
    · by_cases hvu : v.id = uid
      · have hveq : v = u := eq_of_mem_of_id_eq hn hv_mem hu_mem (by rw [hvu, huid])
        subst hveq
        have hget : getById (login_view verify now db session email password).db
            uid = some { v with failed_login_attempts := 0,
                                last_login := some now } := by
          rw [hdb, ← huid]
          exact getById_updateById_self ⟨v, hv_mem, rfl⟩
        rw [hget] at hu'
        rw [← Option.some.inj hu'] at hne
        exact absurd rfl hne
      · rw [hdb,
          @getById_updateById_ne db
            { v with failed_login_attempts := 0, last_login := some now }
            uid hvu, hu] at hu'
        exact absurd (congrArg User.is_locked (Option.some.inj hu')).symm hne
    · by_cases hvu : v.id = uid
      · have hveq : v = u := eq_of_mem_of_id_eq hn hv_mem hu_mem (by rw [hvu, huid])
        subst hveq
        have hget : getById (login_view verify now db session email password).db
            uid = some { v with failed_login_attempts :=
                                  v.failed_login_attempts + 1,
                                is_locked := true } := by
          rw [hdb, ← huid]
          exact getById_updateById_self ⟨v, hv_mem, rfl⟩
        rw [hget] at hu'
        rw [← Option.some.inj hu']
        exact ⟨hA, rfl, rfl, hn5⟩
      · rw [hdb,
          @getById_updateById_ne db
            { v with failed_login_attempts := v.failed_login_attempts + 1,
                     is_locked := true } uid hvu, hu] at hu'
        exact absurd (congrArg User.is_locked (Option.some.inj hu')).symm hne
    · by_cases hvu : v.id = uid
      · have hveq : v = u := eq_of_mem_of_id_eq hn hv_mem hu_mem (by rw [hvu, huid])
        subst hveq
        have hget : getById (login_view verify now db session email password).db
            uid = some { v with failed_login_attempts :=
                                  v.failed_login_attempts + 1 } := by
          rw [hdb, ← huid]
          exact getById_updateById_self ⟨v, hv_mem, rfl⟩
        rw [hget] at hu'
        rw [← Option.some.inj hu'] at hne
        exact absurd rfl hne
      · rw [hdb,
          @getById_updateById_ne db
            { v with failed_login_attempts := v.failed_login_attempts + 1 }
            uid hvu, hu] at hu'
        exact absurd (congrArg User.is_locked (Option.some.inj hu')).symm hne

/-- Witness for C3: six straight wrong-password attempts against a concrete
admin account leave its lock flag false and counter at 0, and the toggle on
a locked admin sets the requested value and zeroes the counter. -/
theorem C3_admin_exempt_witness :
    (∃ u', getById (loginSeq beqVerify 0 [sampleAdmin]
        [("a@x", "b1"), ("a@x", "b2"), ("a@x", "b3"),
         ("a@x", "b4"), ("a@x", "b5"), ("a@x", "b6")]) 2 = some u' ∧
      u'.is_admin = true ∧ u'.is_locked = sampleAdmin.is_locked ∧
      u'.failed_login_attempts ≤ sampleAdmin.failed_login_attempts) ∧
    (∃ db', toggle_lock_user [sampleLockedAdmin] 2 false = some db' ∧
      getById db' 2 =
        some { sampleLockedAdmin with is_locked := false,
                                      failed_login_attempts := 0 }) :=
  ⟨(C3_admin_exempt beqVerify 0).1 [sampleAdmin]
      [("a@x", "b1"), ("a@x", "b2"), ("a@x", "b3"),
       ("a@x", "b4"), ("a@x", "b5"), ("a@x", "b6")] 2 sampleAdmin
      (by simp [NodupIds]) rfl rfl,
   (C3_admin_exempt beqVerify 0).2.2.1 [sampleLockedAdmin] 2
      sampleLockedAdmin false rfl⟩

/-- Witness for C1 at a concrete table: a student with stages of orders
2 and 5 (a gap below the max) gets order 6 next, and a student with no
stages gets order 1. -/
theorem C1_add_stage_order_witness :
    (add_learning_path
        [{ id := 1, student := 9, task_name := "x", is_completed := false,
           order := 2 },
         { id := 2, student := 9, task_name := "y", is_completed := true,
           order := 5 }] 9 3 "z")
      = [{ id := 1, student := 9, task_name := "x", is_completed := false,
           order := 2 },
         { id := 2, student := 9, task_name := "y", is_completed := true,
           order := 5 },
         { id := 3, student := 9, task_name := "z", is_completed := false,
           order := 6 }] ∧
    add_learning_path [] 4 1 "w"
      = [{ id := 1, student := 4, task_name := "w", is_completed := false,
           order := 1 }] := by
  constructor
  · exact (C1_add_stage_order _ 9 3 0 "z" Session.empty).1
  · exact (C1_add_stage_order [] 4 1 0 "w" Session.empty).2.1 rfl

/-- C10: a locked admin with the correct password logs in successfully: the
lock check applies only to non-admin users, so the session is established,
the failed-attempt counter is reset to 0, and last_login is updated. -/
theorem C10_locked_admin_can_login
    (verify : String → String → Bool) (now : Nat) (db : List User)
    (session : Session) (email password : String) (u : User)
    (he : email.isEmpty = false) (hp : password.isEmpty = false)
    (hf : findByEmail db email = some u) (ha : u.is_admin = true)
    (hl : u.is_locked = true) (hv : verify password u.password = true) :
    login_view verify now db session email password =
      ⟨updateById db { u with failed_login_attempts := 0,
                              last_login := some now },
       { session with user_id := some (toString u.id),
                      user_email := some u.email },
       "Login successful!", true⟩ ∧
    getById (login_view verify now db session email password).db u.id =
      some { u with failed_login_attempts := 0, last_login := some now } := by
  have h := @login_view_success verify now db session email password u
    he hp hf (by simp [ha]) hv
  refine ⟨h, ?_⟩
  rw [h]
  exact getById_updateById_self ⟨u, findByEmail_mem hf, rfl⟩

/-- Witness for C10: a concrete locked admin logging in with the correct
password reaches the dashboard with the session set and counter reset. -/
theorem C10_locked_admin_can_login_witness :
    login_view beqVerify 7 [sampleLockedAdmin] Session.empty "a@x" "pw" =
      ⟨[{ sampleLockedAdmin with failed_login_attempts := 0,
                                 last_login := some 7 }],
       ⟨some "2", some "a@x"⟩, "Login successful!", true⟩ :=
  (C10_locked_admin_can_login beqVerify 7 [sampleLockedAdmin] Session.empty
    "a@x" "pw" sampleLockedAdmin rfl rfl rfl rfl rfl rfl).1

/-- C7 counterexample: with the same wrong password, the login message for
an existing non-admin account reports an attempt count, while the message
for a nonexistent email does not — the two runs are distinguishable, so the
response reveals whether the email exists. -/
theorem C7_counterexample :
    ((login_view beqVerify 0 [sampleU0] Session.empty "e@x" "bad").message
      == (login_view beqVerify 0 [] Session.empty "e@x" "bad").message)
      = false := by decide

/-- C7 amended: the indistinguishability does hold when the account with the
submitted email is an admin: its wrong-password message equals the
nonexistent-email message, both "Invalid email or password.". -/
theorem C7_admin_messages_indistinguishable
    (verify : String → String → Bool) (now : Nat)
    (db db2 : List User) (session session2 : Session)
    (email password : String) (u : User)
    (he : email.isEmpty = false) (hp : password.isEmpty = false)
    (hf : findByEmail db email = some u) (ha : u.is_admin = true)
    (hv : verify password u.password = false)
    (hf2 : findByEmail db2 email = none) :
    (login_view verify now db session email password).message =
      (login_view verify now db2 session2 email password).message := by
  rw [login_view_wrong_admin he hp hf ha hv,
      login_view_not_found he hp hf2]

/-- Witness for the amended C7: a wrong password against a concrete admin
account and against an empty user table produce the same message. -/
theorem C7_admin_messages_indistinguishable_witness :
    (login_view beqVerify 0 [sampleAdmin] Session.empty "a@x" "bad").message =
      (login_view beqVerify 0 [] Session.empty "a@x" "bad").message :=
  C7_admin_messages_indistinguishable beqVerify 0 [sampleAdmin] []
    Session.empty Session.empty "a@x" "bad" sampleAdmin
    rfl rfl rfl rfl rfl rfl

/-- C4: the admin_required guard checks in order with short-circuiting:
no session id → login redirect with the please-log-in message; unparsable
id or no matching user → login redirect with the invalid-session message
and a session flush; any other fetch fault → login redirect with a generic
message; a resolved non-admin → unauthorized redirect; otherwise the
resolved user is attached and the wrapped view invoked. The session is
returned unchanged except for the flush, and resolving a flushed session
again yields the anonymous outcome. -/
theorem C4_admin_required_gate {α : Type} (parse : String → Option Nat)
    (fetch : Nat → FetchResult) (view : User → α) (session : Session) :
    (session.user_id = none →
      admin_required parse fetch view session =
        (GuardOutcome.redirectLogin "Please log in to access this page",
         session)) ∧
    (∀ s, session.user_id = some s → parse s = none →
      admin_required parse fetch view session =
        (GuardOutcome.redirectLogin "Invalid session. Please log in again.",
         session.flush)) ∧
    (∀ s uid, session.user_id = some s → parse s = some uid →
      fetch uid = FetchResult.notFound →
      admin_required parse fetch view session =
        (GuardOutcome.redirectLogin "Invalid session. Please log in again.",
         session.flush)) ∧
    (∀ s uid, session.user_id = some s → parse s = some uid →
      fetch uid = FetchResult.fault →
      admin_required parse fetch view session =
        (GuardOutcome.redirectLogin
          "An unexpected error occurred. Please try again later.", session)) ∧
    (∀ s uid u, session.user_id = some s → parse s = some uid →
      fetch uid = FetchResult.found u → u.is_admin = false →
      admin_required parse fetch view session =
        (GuardOutcome.redirectUnauthorized
          "You do not have permission to access this page", session)) ∧
    (∀ s uid u, session.user_id = some s → parse s = some uid →
      fetch uid = FetchResult.found u → u.is_admin = true →
      admin_required parse fetch view session =
        (GuardOutcome.proceed u (view u), session)) ∧
    (admin_required parse fetch view session.flush =
      (GuardOutcome.redirectLogin "Please log in to access this page",
       session.flush)) := by
  refine ⟨?_, ?_, ?_, ?_, ?_, ?_, ?_⟩
  · intro h
    simp [admin_required, h]
  · intro s hs hparse
    simp [admin_required, hs, hparse]
  · intro s uid hs hparse hfetch
    simp [admin_required, hs, hparse, hfetch]
  · intro s uid hs hparse hfetch
    simp [admin_required, hs, hparse, hfetch]
  · intro s uid u hs hparse hfetch hadm
    simp [admin_required, hs, hparse, hfetch, hadm]
  · intro s uid u hs hparse hfetch hadm
    simp [admin_required, hs, hparse, hfetch, hadm]
  · simp [admin_required, Session.flush]

/-- Witness for C4 with a concrete parser (decimal), table and view: an
admin session proceeds with the user attached; a session naming a missing
user redirects to login and flushes; re-resolving the flushed session is
anonymous. -/
theorem C4_admin_required_gate_witness :
    (admin_required parseDigits (dbFetch [sampleAdmin]) (fun u => u.id)
        ⟨some "2", some "a@x"⟩ =
      (GuardOutcome.proceed sampleAdmin 2, ⟨some "2", some "a@x"⟩)) ∧
    (admin_required parseDigits (dbFetch [sampleAdmin]) (fun u => u.id)
        ⟨some "99", none⟩ =
      (GuardOutcome.redirectLogin "Invalid session. Please log in again.",
       Session.flush ⟨some "99", none⟩)) ∧
    (admin_required parseDigits (dbFetch [sampleAdmin]) (fun u => u.id)
        (Session.flush ⟨some "99", none⟩) =
      (GuardOutcome.redirectLogin "Please log in to access this page",
       Session.flush ⟨some "99", none⟩)) :=
  ⟨(C4_admin_required_gate parseDigits (dbFetch [sampleAdmin])
      (fun u => u.id) ⟨some "2", some "a@x"⟩).2.2.2.2.2.1
      "2" 2 sampleAdmin rfl (by decide) rfl rfl,
   (C4_admin_required_gate parseDigits (dbFetch [sampleAdmin])
      (fun u => u.id) ⟨some "99", none⟩).2.2.1 "99" 99 rfl (by decide) rfl,
   (C4_admin_required_gate parseDigits (dbFetch [sampleAdmin])
      (fun u => u.id) ⟨some "99", none⟩).2.2.2.2.2.2⟩
